import Mathlib

/-!
Verification of the multi-phase orientation-refinement pipeline and the job
execution manager of the EBSD GUI repository.  The definitions below are a
shallow embedding of `src/scripts/refinement.py` (dialog `RefineSetupDialog`)
and of the job-manager contract; machine data such as the per-pixel phase-id
array of a crystal map is embedded as plain lists of integers.
-/

deriving instance DecidableEq for Except

namespace EBSD

/-- A crystal map as used by the refinement pipeline: a (rows, columns) grid
shape, a phase list of (name, id) pairs, the flattened per-pixel phase-id
array (`-1` meaning not indexed) and an abstract per-pixel rotation value. -/
structure CrystalMap where
  shape : Nat × Nat
  phases : List (String × Int)
  phaseId : List Int
  rotations : List Nat
  deriving DecidableEq, Repr

/-- `PhaseList.id_from_name`: the id of the first phase with the given name,
`none` standing for the `KeyError` raised when the name is absent. -/
def idFromName (phases : List (String × Int)) (name : String) : Option Int :=
  (phases.find? (fun p => p.fst == name)).map Prod.snd

/-- The navigation-mask construction of `refine_orientations`
(`~(xmap.phase_id == xmap.phases.id_from_name(mp_key))`): elementwise
boolean complement of the comparison of the phase-id array with `pid`. -/
def buildNavMask (phaseId : List Int) (pid : Int) : List Bool :=
  phaseId.map (fun p => !(p == pid))

/-- The navigation mask built for the phase named `name` over the prior
crystal map `m`; `none` when `id_from_name` raises. -/
def navMaskForPhase (m : CrystalMap) (name : String) : Option (List Bool) :=
  (idFromName m.phases name).map (buildNavMask m.phaseId)

/-- Concrete 2x2 crystal map used as an evaluation witness. -/
def xmapW : CrystalMap :=
  { shape := (2, 2)
    phases := [("ni", 0), ("fe", 1)]
    phaseId := [0, 1, 1, 0]
    rotations := [1, 2, 3, 4] }

/-- C1: for every phase processed by the refinement run, the navigation mask
built for that phase has one entry per pixel of the prior crystal map's grid
and is true exactly at the pixels whose prior phase id differs from the id
that the prior map's phase list assigns to that phase's name. -/
theorem c1_nav_mask (m : CrystalMap) (name : String) (pid : Int)
    (hwf : m.phaseId.length = m.shape.1 * m.shape.2)
    (hid : idFromName m.phases name = some pid) :
    ∃ mask, navMaskForPhase m name = some mask ∧
      mask.length = m.shape.1 * m.shape.2 ∧
      ∀ i : Nat, mask[i]? = (m.phaseId[i]?).map (fun p => decide (p ≠ pid)) := by
  refine ⟨buildNavMask m.phaseId pid, ?_, ?_, ?_⟩
  · simp [navMaskForPhase, hid]
  · simpa [buildNavMask] using hwf
  · intro i
    have hpt : ∀ p : Int, (!(p == pid)) = decide (p ≠ pid) := by
      intro p
      by_cases h : p = pid
      · subst h; simp
      · simp [h]
    simp [buildNavMask, List.getElem?_map, hpt]

/-- Evaluation witness for C1 on the concrete map `xmapW` and phase "ni". -/
theorem c1_nav_mask_witness :
    (xmapW.phaseId.length = xmapW.shape.1 * xmapW.shape.2 ∧
      idFromName xmapW.phases "ni" = some 0) ∧
    (∃ mask, navMaskForPhase xmapW "ni" = some mask ∧
      mask.length = xmapW.shape.1 * xmapW.shape.2 ∧
      ∀ i : Nat, mask[i]? = (xmapW.phaseId[i]?).map (fun p => decide (p ≠ 0))) :=
  ⟨⟨by decide, by decide⟩, c1_nav_mask xmapW "ni" 0 (by decide) (by decide)⟩

/-- The runtime errors the refinement pipeline can surface.  `keyError` is a
Python `KeyError` (failed dict / phase-list lookup), `indexError` a failed
list indexing, `evalError` a failure of `eval` on an option string,
`refineError` an exception raised inside one phase's numerical refinement,
and `configurationError` stands for the `ConfigurationError` class named by
the spec, which no code in the repository ever raises. -/
inductive RunError where
  | evalError
  | keyError
  | indexError
  | configurationError
  | refineError (phase : String)
  deriving DecidableEq, Repr

/-- Decimal digit value of a character, if it is one. -/
def digitVal? (c : Char) : Option Nat :=
  if 48 ≤ c.toNat ∧ c.toNat ≤ 57 then some (c.toNat - 48) else none

/-- Accumulating decimal parse of a character list. -/
def strToNatAux : List Char → Nat → Option Nat
  | [], acc => some acc
  | c :: cs, acc =>
    match digitVal? c with
    | some d => strToNatAux cs (acc * 10 + d)
    | none => none

/-- Decimal parse of a string: `some n` on a non-empty all-digit string. -/
def strToNat? (s : String) : Option Nat :=
  match s.toList with
  | [] => none
  | cs => strToNatAux cs 0

/-- Decimal digit character for a value below ten. -/
def digitChar (n : Nat) : Char :=
  match n with
  | 0 => '0' | 1 => '1' | 2 => '2' | 3 => '3' | 4 => '4'
  | 5 => '5' | 6 => '6' | 7 => '7' | 8 => '8' | _ => '9'

/-- Decimal digit characters of `n`, with explicit recursion fuel. -/
def natToStrAux : Nat → Nat → List Char
  | 0, _ => []
  | fuel + 1, n =>
    if n < 10 then [digitChar n]
    else natToStrAux fuel (n / 10) ++ [digitChar (n % 10)]

/-- Python `str(n)` for a natural number: its decimal representation. -/
def natToStr (n : Nat) : String := ⟨natToStrAux (n + 1) n⟩

/-- `eval(options["binning"])` on the binning combo-box text: `"None"`
evaluates to `None`, a decimal literal to that number, anything else raises. -/
def evalBinning (s : String) : Except RunError (Option Nat) :=
  if s = "None" then .ok none
  else
    match strToNat? s with
    | some n => .ok (some n)
    | none => .error .evalError

/-- Python list indexing `l[i]` with negative-index wraparound; `none` stands
for an `IndexError`. -/
def pyGet (l : List α) (i : Int) : Option α :=
  if 0 ≤ i then l[i.toNat]?
  else if (-i).toNat ≤ l.length then l[l.length - (-i).toNat]? else none

/-- `RefineSetupDialog.getBinningShapes`: the dict mapping `"None"` to the
signal shape and, for each factor 2..16 that evenly divides both signal
dimensions, the factor's string to the downsampled shape. -/
def getBinningShapes (sig : Nat × Nat) : List (String × (Nat × Nat)) :=
  ("None", sig) ::
    ((List.range 15).map (· + 2)).filterMap (fun num =>
      if sig.1 % num = 0 ∧ sig.2 % num = 0 then
        some (natToStr num, (sig.1 / num, sig.2 / num))
      else none)

/-- Python dict lookup `d[k]` over an association list; `none` stands for a
`KeyError`. -/
def lookupKey (l : List (String × α)) (k : String) : Option α :=
  (l.find? (fun p => p.fst == k)).map Prod.snd

/-- Index of the last `'.'` in a character list, if any. -/
def lastDotIdx (cs : List Char) : Option Nat :=
  (List.range cs.length).foldl
    (fun acc i => if cs[i]? = some '.' then some i else acc) none

/-- `os.path.splitext(name)[0]` for a plain basename: the part before the
last dot, except that a name whose characters before that dot are all dots
(e.g. `".bashrc"`) is returned whole. -/
def splitextStem (s : String) : String :=
  let cs := s.toList
  match lastDotIdx cs with
  | none => s
  | some i => if (cs.take i).all (fun c => c = '.') then s else ⟨cs.take i⟩

/-- `os.path.join(d, n)` for a relative second component: `n` if absolute,
otherwise `d` and `n` joined with a single separator. -/
def pathJoin (d n : String) : String :=
  if n.toList.head? = some '/' then n
  else if d = "" then n
  else if d.toList.getLast? = some '/' then d ++ n
  else d ++ "/" ++ n

/-- The inputs `refine_orientations` reads from the dialog and its options
dict: the pattern dataset's signal shape, the binning combo-box text, the
crystal map's directory and basename, the prior crystal map, the
master-pattern keys in insertion order, the color palette, and the three
derived-product check boxes. -/
structure RefineInput where
  sigShape : Nat × Nat
  binningStr : String
  xmapDir : String
  xmapName : String
  xmap : CrystalMap
  masterPatterns : List String
  colors : List String
  phaseEnabled : Bool
  orientationEnabled : Bool
  nccEnabled : Bool

/-- The binning stage of `refine_orientations`: evaluate the binning option;
`None` keeps the signal shape, a number is looked up (as its string) in the
binning-shapes dict, a missing key raising `KeyError`. -/
def binningStep (inp : RefineInput) : Except RunError (Nat × Nat) :=
  match evalBinning inp.binningStr with
  | .error e => .error e
  | .ok none => .ok inp.sigShape
  | .ok (some b) =>
    match lookupKey (getBinningShapes inp.sigShape) (natToStr b) with
    | none => .error .keyError
    | some shp => .ok shp

/-- One iteration of the per-phase loop: look up the phase id by the
master-pattern key (`KeyError` when absent), index the color palette with it
(`IndexError` when out of range), build the navigation mask, and run the
numerical refinement primitive `prim`, whose outcome is an input to the
model. -/
def phaseStep (inp : RefineInput)
    (prim : String → List Bool → Except RunError CrystalMap) (key : String) :
    Except RunError CrystalMap :=
  match idFromName inp.xmap.phases key with
  | none => .error .keyError
  | some pid =>
    match pyGet inp.colors pid with
    | none => .error .indexError
    | some _ => prim key (buildNavMask inp.xmap.phaseId pid)

/-- The per-phase loop over the master-pattern keys in insertion order,
collecting one partial crystal map per phase; an exception in any iteration
propagates out of the loop. -/
def refineLoop (inp : RefineInput)
    (prim : String → List Bool → Except RunError CrystalMap) :
    List String → Except RunError (List CrystalMap)
  | [] => .ok []
  | k :: ks =>
    match phaseStep inp prim k with
    | .error e => .error e
    | .ok m =>
      match refineLoop inp prim ks with
      | .error e => .error e
      | .ok rest => .ok (m :: rest)

/-- Whether partial map `m` claims pixel `i` (its phase id there is not the
not-indexed value `-1`). -/
def claimsPixel (m : CrystalMap) (i : Nat) : Bool :=
  match m.phaseId[i]? with
  | some p => p != -1
  | none => false

/-- Merged phase id at pixel `i`: the value of the last partial in list
order that claims the pixel, `-1` when no partial claims it. -/
def mergedPixelPhase (maps : List CrystalMap) (i : Nat) : Int :=
  maps.foldl
    (fun acc m =>
      match m.phaseId[i]? with
      | some p => if p = -1 then acc else p
      | none => acc)
    (-1)

/-- Merged rotation at pixel `i`: the rotation of the last partial in list
order that claims the pixel, `0` when no partial claims it. -/
def mergedPixelRot (maps : List CrystalMap) (i : Nat) : Nat :=
  maps.foldl
    (fun acc m =>
      match m.phaseId[i]?, m.rotations[i]? with
      | some p, some r => if p = -1 then acc else r
      | _, _ => acc)
    0

/-- Union of the partials' phase lists, keeping first occurrences. -/
def unionPhases (maps : List CrystalMap) : List (String × Int) :=
  maps.foldl (fun acc m => acc ++ m.phases.filter (fun p => decide (p ∉ acc))) []

/-- Modelled from the spec: `kikuchipy.indexing._merge_crystal_maps.
merge_crystal_maps`, whose body is outside this repository; per the spec the
merged map keeps the original grid shape, takes the union of the partials'
phase lists, and at each pixel claimed by several partials the later-iterated
partial wins, unclaimed pixels staying not indexed. -/
def mergeCrystalMaps (maps : List CrystalMap) : CrystalMap :=
  let shape := match maps with
    | [] => (0, 0)
    | m :: _ => m.shape
  let n := shape.1 * shape.2
  { shape := shape
    phases := unionPhases maps
    phaseId := (List.range n).map (mergedPixelPhase maps)
    rotations := (List.range n).map (mergedPixelRot maps) }

/-- The merge stage of `refine_orientations`: a single partial map is used
directly without merging; several are passed to `merge_crystal_maps`; an
empty result list would make the subscript `ref_xmaps_list[0]`-free branch
call the merger with no maps, which raises. -/
def mergeStep : List CrystalMap → Except RunError CrystalMap
  | [] => .error .indexError
  | [m] => .ok m
  | ms => .ok (mergeCrystalMaps ms)

/-- The two file names `refine_orientations` saves the merged map to:
`refined_<stem>.h5` and `refined_<stem>.ang` in the crystal map's
directory. -/
def savedFileNames (dir name : String) : List String :=
  [pathJoin dir ("refined_" ++ splitextStem name ++ ".h5"),
   pathJoin dir ("refined_" ++ splitextStem name ++ ".ang")]

/-- The derived-product keys iterated by `refine_orientations`, in order. -/
def productKeys : List String := ["phase", "orientation", "ncc"]

/-- Whether the check box for product `k` is enabled in the options dict. -/
def productEnabled (inp : RefineInput) (k : String) : Bool :=
  if k = "phase" then inp.phaseEnabled
  else if k = "orientation" then inp.orientationEnabled
  else if k = "ncc" then inp.nccEnabled
  else false

/-- Whether an `Except` value is a success. -/
def exceptOk : Except ε α → Bool
  | .ok _ => true
  | .error _ => false

/-- The derived-product loop: each enabled product's generator is invoked
inside a try/except that logs a failure and moves on, so the loop records
one (key, succeeded) entry per enabled key and never raises. -/
def runProductsAux (inp : RefineInput) (gen : String → Except String Unit) :
    List String → List (String × Bool)
  | [] => []
  | k :: ks =>
    if productEnabled inp k then
      (k, exceptOk (gen k)) :: runProductsAux inp gen ks
    else runProductsAux inp gen ks

/-- What a completed `refine_orientations` run produced: the final crystal
map, the persisted file paths, and the attempted derived products with their
individual outcomes. -/
structure RunOutput where
  refXmap : CrystalMap
  savedFiles : List String
  productAttempts : List (String × Bool)
  deriving DecidableEq, Repr

/-- `RefineSetupDialog.refine_orientations` as run inside the job: binning
validation and rebin, the per-phase refinement loop, the merge stage, the
two saves of the merged map, then the derived-product loop.  The numerical
refinement primitive `prim` and the product generators `gen` are opaque
collaborators whose outcomes are inputs to the model. -/
def refineOrientations (inp : RefineInput)
    (prim : String → List Bool → Except RunError CrystalMap)
    (gen : String → Except String Unit) : Except RunError RunOutput :=
  match binningStep inp with
  | .error e => .error e
  | .ok _ =>
    match refineLoop inp prim inp.masterPatterns with
    | .error e => .error e
    | .ok results =>
      match mergeStep results with
      | .error e => .error e
      | .ok refXmap =>
        .ok { refXmap := refXmap
              savedFiles := savedFileNames inp.xmapDir inp.xmapName
              productAttempts := runProductsAux inp gen productKeys }

/-- Dialog state for a run whose binning option is valid and whose prior map
is `xmapW`, used as an evaluation witness. -/
def inpW : RefineInput :=
  { sigShape := (4, 4), binningStr := "None", xmapDir := "proj",
    xmapName := "scan.h5", xmap := xmapW, masterPatterns := ["ni"],
    colors := ["blue", "orange"], phaseEnabled := false,
    orientationEnabled := true, nccEnabled := true }

/-- A refinement primitive that succeeds on every phase, returning `xmapW`. -/
def primW : String → List Bool → Except RunError CrystalMap :=
  fun _ _ => .ok xmapW

/-- Product generators that all succeed. -/
def genW : String → Except String Unit := fun _ => .ok ()

/-- C2: a refinement run whose per-phase result mapping holds exactly one
partial crystal map skips the merge step, and the final crystal map is that
partial map itself, unchanged in every field. -/
theorem c2_single_partial (inp : RefineInput)
    (prim : String → List Bool → Except RunError CrystalMap)
    (gen : String → Except String Unit) (k : String) (m : CrystalMap)
    (hmp : inp.masterPatterns = [k])
    (hpre : ∃ s, binningStep inp = .ok s)
    (hok : phaseStep inp prim k = .ok m) :
    ∃ out, refineOrientations inp prim gen = .ok out ∧ out.refXmap = m := by
  obtain ⟨s, hs⟩ := hpre
  refine ⟨{ refXmap := m, savedFiles := savedFileNames inp.xmapDir inp.xmapName,
            productAttempts := runProductsAux inp gen productKeys }, ?_, rfl⟩
  simp [refineOrientations, hs, hmp, refineLoop, hok, mergeStep]

/-- Evaluation witness for C2 on the single-phase run `inpW`. -/
theorem c2_single_partial_witness :
    (inpW.masterPatterns = ["ni"] ∧ (∃ s, binningStep inpW = .ok s) ∧
      phaseStep inpW primW "ni" = .ok xmapW) ∧
    (∃ out, refineOrientations inpW primW genW = .ok out ∧ out.refXmap = xmapW) :=
  ⟨⟨rfl, ⟨(4, 4), by decide⟩, by decide⟩,
   c2_single_partial inpW primW genW "ni" xmapW rfl ⟨(4, 4), by decide⟩ (by decide)⟩

/-- A failure in any iteration of the per-phase loop, with every earlier
iteration succeeding, propagates out of the whole loop. -/
theorem refineLoop_append_error (inp : RefineInput)
    (prim : String → List Bool → Except RunError CrystalMap)
    (ks₁ : List String) (k : String) (ks₂ : List String) (e : RunError)
    (hok : ∀ x ∈ ks₁, ∃ m, phaseStep inp prim x = .ok m)
    (hfail : phaseStep inp prim k = .error e) :
    refineLoop inp prim (ks₁ ++ k :: ks₂) = .error e := by
  induction ks₁ with
  | nil => simp [refineLoop, hfail]
  | cons a as ih =>
    obtain ⟨m, hm⟩ := hok a (by simp)
    have hrest : refineLoop inp prim (as ++ k :: ks₂) = .error e :=
      ih (fun x hx => hok x (by simp [hx]))
    simp [refineLoop, hm, hrest]

/-- C3: in a refinement run over multiple phases, if one phase's numerical
refinement raises (every earlier phase having succeeded), the whole run
aborts with that exception: no merged map, no saved file and no derived
product is produced, whatever the product generators would have done, and
the sibling partial results are discarded. -/
theorem c3_phase_failure_aborts (inp : RefineInput)
    (prim : String → List Bool → Except RunError CrystalMap)
    (gen : String → Except String Unit)
    (ks₁ ks₂ : List String) (k : String) (e : RunError)
    (hmp : inp.masterPatterns = ks₁ ++ k :: ks₂)
    (hmulti : 2 ≤ inp.masterPatterns.length)
    (hpre : ∃ s, binningStep inp = .ok s)
    (hok : ∀ x ∈ ks₁, ∃ m, phaseStep inp prim x = .ok m)
    (hfail : phaseStep inp prim k = .error e) :
    refineOrientations inp prim gen = .error e := by
  obtain ⟨s, hs⟩ := hpre
  have hloop := refineLoop_append_error inp prim ks₁ k ks₂ e hok hfail
  simp [refineOrientations, hs, hmp, hloop]

/-- Dialog state for a two-phase run, used as an evaluation witness. -/
def inpC3 : RefineInput :=
  { inpW with masterPatterns := ["ni", "fe"] }

/-- A refinement primitive that raises while refining phase "fe" and
succeeds on every other phase. -/
def primFail : String → List Bool → Except RunError CrystalMap :=
  fun key _ => if key == "fe" then .error (.refineError "fe") else .ok xmapW

/-- Evaluation witness for C3 on the two-phase run `inpC3`, whose second
phase's refinement raises. -/
theorem c3_phase_failure_aborts_witness :
    (inpC3.masterPatterns = ["ni"] ++ "fe" :: [] ∧
      2 ≤ inpC3.masterPatterns.length ∧
      (∃ s, binningStep inpC3 = .ok s) ∧
      phaseStep inpC3 primFail "fe" = .error (.refineError "fe")) ∧
    refineOrientations inpC3 primFail genW = .error (.refineError "fe") :=
  ⟨⟨rfl, by decide, ⟨(4, 4), by decide⟩, by decide⟩,
   c3_phase_failure_aborts inpC3 primFail genW ["ni"] [] "fe" (.refineError "fe")
     rfl (by decide) ⟨(4, 4), by decide⟩
     (fun x hx => by
       have hx2 : x = "ni" := by simpa using hx
       subst hx2
       exact ⟨xmapW, by decide⟩)
     (by decide)⟩

/-- A partial crystal map claiming pixel 0 only, used as a counterexample
input. -/
def partA : CrystalMap :=
  { shape := (1, 2), phases := [("ni", 0)], phaseId := [0, -1],
    rotations := [10, 0] }

/-- A partial crystal map claiming both pixels, so its claimed pixel set
overlaps `partA`'s at pixel 0. -/
def partB : CrystalMap :=
  { shape := (1, 2), phases := [("fe", 1)], phaseId := [1, 1],
    rotations := [20, 21] }

/-- C4 counterexample: merging the two partial maps `partA` and `partB`,
whose claimed pixel sets overlap at pixel 0, raises nothing at all — the
merge stage returns a merged map in which the later-iterated partial's phase
id silently won pixel 0; no `MergeInvariantViolation` is surfaced (no such
error exists anywhere in the program). -/
theorem c4_counterexample :
    claimsPixel partA 0 = true ∧ claimsPixel partB 0 = true ∧
    mergeStep [partA, partB] = .ok (mergeCrystalMaps [partA, partB]) ∧
    (mergeCrystalMaps [partA, partB]).phaseId[0]? = some 1 ∧
    (mergeCrystalMaps [partA, partB]).phaseId[0]? ≠ some 0 := by decide

/-- C4 amended: merging two partial maps whose claimed (navigation-masked)
pixel sets are not disjoint never raises; the merge stage returns a map in
which, at each pixel claimed by both, the later-iterated partial's phase id
wins silently by precedence. -/
theorem c4_amended_later_wins (a b : CrystalMap) (i : Nat) (pb : Int)
    (ha : claimsPixel a i = true)
    (hb : b.phaseId[i]? = some pb) (hpb : pb ≠ -1)
    (hi : i < a.shape.1 * a.shape.2) :
    ∃ m, mergeStep [a, b] = .ok m ∧ m.phaseId[i]? = some pb := by
  refine ⟨mergeCrystalMaps [a, b], rfl, ?_⟩
  have hn : (List.range (a.shape.1 * a.shape.2))[i]? = some i :=
    List.getElem?_range hi
  simp [mergeCrystalMaps, List.getElem?_map, hn, mergedPixelPhase, hb, hpb]

/-- Evaluation witness for the amended C4 on `partA` and `partB`. -/
theorem c4_amended_later_wins_witness :
    (claimsPixel partA 0 = true ∧ partB.phaseId[0]? = some 1 ∧
      (1 : Int) ≠ -1 ∧ 0 < partA.shape.1 * partA.shape.2) ∧
    (∃ m, mergeStep [partA, partB] = .ok m ∧ m.phaseId[0]? = some 1) :=
  ⟨⟨by decide, by decide, by decide, by decide⟩,
   c4_amended_later_wins partA partB 0 1 (by decide) (by decide) (by decide)
     (by decide)⟩

/-- A run whose signal shape (7, 5) is not evenly divided by the requested
binning factor 2, used as a counterexample input. -/
def inpC5 : RefineInput :=
  { inpW with sigShape := (7, 5), binningStr := "2" }

/-- C5 counterexample: a binning factor (2) that does not evenly divide the
signal shape (7, 5) makes the run fail with a `KeyError` from the
binning-shapes dict lookup, not with a `ConfigurationError` — no
re-validation of the factor exists. -/
theorem c5_counterexample :
    refineOrientations inpC5 primW genW = .error RunError.keyError ∧
    RunError.keyError ≠ RunError.configurationError := by decide

/-- C5 amended: a requested binning factor whose string is absent from the
binning-shapes dict (in particular any factor that does not evenly divide
both signal dimensions) aborts the run with a `KeyError` before any
per-phase refinement call is made — the outcome is the same for every
refinement primitive and every product generator. -/
theorem c5_amended_keyerror (inp : RefineInput) (b : Nat)
    (hb : evalBinning inp.binningStr = .ok (some b))
    (hkey : lookupKey (getBinningShapes inp.sigShape) (natToStr b) = none) :
    ∀ prim gen, refineOrientations inp prim gen = .error RunError.keyError := by
  intro prim gen
  simp [refineOrientations, binningStep, hb, hkey]

/-- Evaluation witness for the amended C5 on shape (7, 5) and factor 2. -/
theorem c5_amended_keyerror_witness :
    (evalBinning inpC5.binningStr = .ok (some 2) ∧
      lookupKey (getBinningShapes inpC5.sigShape) (natToStr 2) = none) ∧
    refineOrientations inpC5 primW genW = .error RunError.keyError :=
  ⟨⟨by decide, by decide⟩,
   c5_amended_keyerror inpC5 2 (by decide) (by decide) primW genW⟩

/-- The merge stage succeeds on every non-empty list of partial maps. -/
theorem mergeStep_ok_of_ne_nil (ms : List CrystalMap) (h : ms ≠ []) :
    ∃ m, mergeStep ms = .ok m := by
  match ms with
  | [] => exact absurd rfl h
  | [m] => exact ⟨m, rfl⟩
  | a :: b :: rest => exact ⟨mergeCrystalMaps (a :: b :: rest), rfl⟩

/-- C7: a refinement run that completes its merge stage persists the merged
map to exactly two destinations in the source crystal map's directory,
named by putting `refined_` before the source crystal-map basename's stem:
`refined_<stem>.h5` and `refined_<stem>.ang`. -/
theorem c7_saved_files (inp : RefineInput)
    (prim : String → List Bool → Except RunError CrystalMap)
    (gen : String → Except String Unit)
    (hpre : ∃ s, binningStep inp = .ok s)
    (hloop : ∃ results, refineLoop inp prim inp.masterPatterns = .ok results ∧
      results ≠ []) :
    ∃ out, refineOrientations inp prim gen = .ok out ∧
      out.savedFiles =
        [pathJoin inp.xmapDir ("refined_" ++ splitextStem inp.xmapName ++ ".h5"),
         pathJoin inp.xmapDir ("refined_" ++ splitextStem inp.xmapName ++ ".ang")] := by
  obtain ⟨s, hs⟩ := hpre
  obtain ⟨results, hr, hne⟩ := hloop
  obtain ⟨m, hm⟩ := mergeStep_ok_of_ne_nil results hne
  refine ⟨{ refXmap := m, savedFiles := savedFileNames inp.xmapDir inp.xmapName,
            productAttempts := runProductsAux inp gen productKeys }, ?_, rfl⟩
  simp [refineOrientations, hs, hr, hm]

/-- Evaluation witness for C7: the run on `inpW` saves exactly
`proj/refined_scan.h5` and `proj/refined_scan.ang`. -/
theorem c7_saved_files_witness :
    ((∃ s, binningStep inpW = .ok s) ∧
      (∃ results, refineLoop inpW primW inpW.masterPatterns = .ok results ∧
        results ≠ [])) ∧
    (∃ out, refineOrientations inpW primW genW = .ok out ∧
      out.savedFiles =
        [pathJoin inpW.xmapDir ("refined_" ++ splitextStem inpW.xmapName ++ ".h5"),
         pathJoin inpW.xmapDir ("refined_" ++ splitextStem inpW.xmapName ++ ".ang")]) ∧
    pathJoin inpW.xmapDir ("refined_" ++ splitextStem inpW.xmapName ++ ".h5") =
      "proj/refined_scan.h5" ∧
    pathJoin inpW.xmapDir ("refined_" ++ splitextStem inpW.xmapName ++ ".ang") =
      "proj/refined_scan.ang" :=
  ⟨⟨⟨(4, 4), by decide⟩, ⟨[xmapW], by decide, by decide⟩⟩,
   c7_saved_files inpW primW genW ⟨(4, 4), by decide⟩
     ⟨[xmapW], by decide, by decide⟩,
   by decide, by decide⟩

/-- The derived-product loop equals, for every generator behaviour, the list
of enabled keys each paired with its own generator's outcome. -/
theorem runProductsAux_eq (inp : RefineInput) (gen : String → Except String Unit) :
    ∀ l : List String, runProductsAux inp gen l =
      (l.filter (productEnabled inp)).map (fun k => (k, exceptOk (gen k))) := by
  intro l
  induction l with
  | nil => rfl
  | cons k ks ih =>
    by_cases h : productEnabled inp k <;>
      simp [runProductsAux, h, ih, List.filter_cons]

/-- C8: once the merge stage is reached, the derived-product stage attempts
every enabled product and records each generator's individual outcome; a
generator's failure is caught, leaves the other products attempted, and the
overall run still completes successfully, whatever the generators do. -/
theorem c8_products_nonfatal (inp : RefineInput)
    (prim : String → List Bool → Except RunError CrystalMap)
    (gen : String → Except String Unit)
    (hpre : ∃ s, binningStep inp = .ok s)
    (hloop : ∃ results, refineLoop inp prim inp.masterPatterns = .ok results ∧
      results ≠ []) :
    ∃ out, refineOrientations inp prim gen = .ok out ∧
      out.productAttempts =
        (productKeys.filter (productEnabled inp)).map
          (fun k => (k, exceptOk (gen k))) := by
  obtain ⟨s, hs⟩ := hpre
  obtain ⟨results, hr, hne⟩ := hloop
  obtain ⟨m, hm⟩ := mergeStep_ok_of_ne_nil results hne
  refine ⟨{ refXmap := m, savedFiles := savedFileNames inp.xmapDir inp.xmapName,
            productAttempts := runProductsAux inp gen productKeys }, ?_,
    runProductsAux_eq inp gen productKeys⟩
  simp [refineOrientations, hs, hr, hm]

/-- A run with all three derived products enabled, used as an evaluation
witness. -/
def inpC8 : RefineInput :=
  { inpW with phaseEnabled := true }

/-- Product generators where the phase-map generator raises and the other
two succeed. -/
def genFail : String → Except String Unit :=
  fun k => if k == "phase" then .error "plot failed" else .ok ()

/-- Evaluation witness for C8: with the phase-map generator raising, the run
on `inpC8` still completes and attempts all three products. -/
theorem c8_products_nonfatal_witness :
    ((∃ s, binningStep inpC8 = .ok s) ∧
      (∃ results, refineLoop inpC8 primW inpC8.masterPatterns = .ok results ∧
        results ≠ [])) ∧
    (∃ out, refineOrientations inpC8 primW genFail = .ok out ∧
      out.productAttempts =
        (productKeys.filter (productEnabled inpC8)).map
          (fun k => (k, exceptOk (genFail k)))) ∧
    (productKeys.filter (productEnabled inpC8)).map
        (fun k => (k, exceptOk (genFail k))) =
      [("phase", false), ("orientation", true), ("ncc", true)] :=
  ⟨⟨⟨(4, 4), by decide⟩, ⟨[xmapW], by decide, by decide⟩⟩,
   c8_products_nonfatal inpC8 primW genFail ⟨(4, 4), by decide⟩
     ⟨[xmapW], by decide, by decide⟩,
   by decide⟩

/-- Observable actions of the worker wrapper while it runs one job. -/
inductive JobEvent where
  | installRedirect
  | invokeCallable
  | restoreRedirect
  | cleanupEvent
  | reportSucceeded
  | reportFailed (msg : String)
  deriving DecidableEq, Repr

/-- The per-job flags the job execution manager receives. -/
structure JobSpec where
  title : String
  allowLogging : Bool
  allowCleanup : Bool
  deriving DecidableEq, Repr

/-- Modelled from the spec: the worker wrapper of the job execution manager
(`Worker` / `sendToJobManager`, declared in `utils.threads` but whose
modules are absent from the sources).  Per the spec it installs the per-job
output redirection when logging is allowed, invokes the callable, restores
the prior output destination unconditionally after the callable returns or
raises, releases transient inputs when cleanup is allowed, and finally
reports the terminal state exactly once. -/
def runJobTrace (job : JobSpec) (outcome : Except String Unit) : List JobEvent :=
  (if job.allowLogging then [JobEvent.installRedirect] else [])
    ++ [JobEvent.invokeCallable]
    ++ (if job.allowLogging then [JobEvent.restoreRedirect] else [])
    ++ (if job.allowCleanup then [JobEvent.cleanupEvent] else [])
    ++ [match outcome with
        | .ok _ => JobEvent.reportSucceeded
        | .error e => JobEvent.reportFailed e]

/-- The global output channel: the current destination and the stack of
destinations saved by pending redirections. -/
structure OutChannel where
  current : String
  saved : List String
  deriving DecidableEq, Repr

/-- Effect of one job event on the output channel: installing a redirection
swaps in the job sink and saves the prior destination; restoring pops it;
everything else leaves the channel alone. -/
def applyEvent (sink : String) (ch : OutChannel) : JobEvent → OutChannel
  | JobEvent.installRedirect => ⟨sink, ch.current :: ch.saved⟩
  | JobEvent.restoreRedirect =>
    match ch.saved with
    | prev :: rest => ⟨prev, rest⟩
    | [] => ch
  | _ => ch

/-- The output channel after a sequence of job events. -/
def runChannel (sink : String) (ch : OutChannel) (evs : List JobEvent) : OutChannel :=
  evs.foldl (applyEvent sink) ch

/-- Whether an event reports a terminal job state. -/
def isReport : JobEvent → Bool
  | JobEvent.reportSucceeded => true
  | JobEvent.reportFailed _ => true
  | _ => false

/-- C6: for every job run with logging enabled, whatever the callable's
outcome (normal return or raise), the output redirection installed before
the callable is invoked is torn down again: after the job's event trace the
output channel is exactly what it was before, and the restore event strictly
precedes the report of the terminal state. -/
theorem c6_redirect_torn_down (job : JobSpec) (outcome : Except String Unit)
    (sink : String) (ch : OutChannel)
    (hlog : job.allowLogging = true) :
    runChannel sink ch (runJobTrace job outcome) = ch ∧
    List.findIdx (fun e => e == JobEvent.restoreRedirect) (runJobTrace job outcome) <
      List.findIdx isReport (runJobTrace job outcome) := by
  rcases job with ⟨title, hl, hc⟩
  simp only at hlog
  subst hlog
  cases hc <;> cases outcome <;>
    simp [runJobTrace, runChannel, applyEvent, List.findIdx, List.findIdx.go,
      isReport] <;>
    decide

/-- Evaluation witness for C6 on a concrete logging job whose callable
raises. -/
theorem c6_redirect_torn_down_witness :
    (JobSpec.mk "Dictionary indexing" true true).allowLogging = true ∧
    (runChannel "sink" ⟨"stdout", []⟩
        (runJobTrace ⟨"Dictionary indexing", true, true⟩ (.error "boom")) =
      ⟨"stdout", []⟩ ∧
    List.findIdx (fun e => e == JobEvent.restoreRedirect)
        (runJobTrace ⟨"Dictionary indexing", true, true⟩ (.error "boom")) <
      List.findIdx isReport
        (runJobTrace ⟨"Dictionary indexing", true, true⟩ (.error "boom"))) :=
  ⟨rfl, c6_redirect_torn_down ⟨"Dictionary indexing", true, true⟩ (.error "boom")
    "sink" ⟨"stdout", []⟩ rfl⟩

/-- What `RefineSetupDialog.run_refinement` hands to `sendToJobManager`:
the job title built from the crystal-map name, the crystal-map directory as
output path, and both optional behaviours switched off. -/
structure JobSubmission where
  jobTitle : String
  outputPath : String
  allowCleanup : Bool
  allowLogging : Bool
  deriving DecidableEq, Repr

/-- The submission built by `run_refinement` (refinement.py lines 459-470):
`allow_cleanup=False`, `allow_logging=False`. -/
def refinementSubmission (xmapName xmapDir : String) : JobSubmission :=
  { jobTitle := "Refine orientations " ++ xmapName
    outputPath := xmapDir
    allowCleanup := false
    allowLogging := false }

/-- The job spec the manager receives from a submission. -/
def toJobSpec (s : JobSubmission) : JobSpec :=
  { title := s.jobTitle, allowLogging := s.allowLogging,
    allowCleanup := s.allowCleanup }

/-- C10: every refinement job is submitted with cleanup and logging both
disabled, so whatever the job's outcome its run installs no output
redirection (stdout/stderr are not captured into a log entry) and performs
no cleanup of its transient inputs. -/
theorem c10_refinement_submission (xmapName xmapDir : String)
    (outcome : Except String Unit) :
    (refinementSubmission xmapName xmapDir).allowCleanup = false ∧
    (refinementSubmission xmapName xmapDir).allowLogging = false ∧
    JobEvent.installRedirect ∉
      runJobTrace (toJobSpec (refinementSubmission xmapName xmapDir)) outcome ∧
    JobEvent.cleanupEvent ∉
      runJobTrace (toJobSpec (refinementSubmission xmapName xmapDir)) outcome := by
  refine ⟨rfl, rfl, ?_, ?_⟩ <;> cases outcome <;>
    simp [runJobTrace, refinementSubmission, toJobSpec]

/-- The documented fallback pattern center (0.5, 0.2, 0.5). -/
def pcFallback : Rat × Rat × Rat := (1 / 2, 1 / 5, 1 / 2)

/-- Modelled from the spec: the default values of the three pattern-center
spin boxes of the generated UI module `ui.ui_refine_setup`, which is absent
from the sources; the spec documents the default pattern center as
(0.5, 0.2, 0.5). -/
def uiPatternCenterDefault : Rat × Rat × Rat := (1 / 2, 1 / 5, 1 / 2)

/-- The dialog state the pattern-center code touches: the three spin boxes
and the `self.pc` attribute written by the fallback branch (and read
nowhere). -/
structure DialogState where
  pcX : Rat
  pcY : Rat
  pcZ : Rat
  selfPc : Option (Rat × Rat × Rat)
  deriving DecidableEq, Repr

/-- Dialog state when the dialog opens: spin boxes at their UI defaults,
`self.pc` unset. -/
def initialDialogState : DialogState :=
  { pcX := uiPatternCenterDefault.1
    pcY := uiPatternCenterDefault.2.1
    pcZ := uiPatternCenterDefault.2.2
    selfPc := none }

/-- The pattern-center part of `RefineSetupDialog.load_parameters`:
`setValue(float(read(...)))` for the three entries in order inside one
try/except; the first read or parse failure stops the block, leaving the
remaining spin boxes untouched, and the except branch assigns
`self.pc = np.array([0.500, 0.200, 0.500])`.  `readParse k` is `none` when
entry `k` is missing from the settings store or does not parse as a float. -/
def loadPatternCenter (readParse : String → Option Rat) (st : DialogState) :
    DialogState :=
  match readParse "X star" with
  | none => { st with selfPc := some pcFallback }
  | some x =>
    match readParse "Y star" with
    | none => { st with pcX := x, selfPc := some pcFallback }
    | some y =>
      match readParse "Z star" with
      | none => { st with pcX := x, pcY := y, selfPc := some pcFallback }
      | some z => { st with pcX := x, pcY := y, pcZ := z }

/-- The pattern center `getOptions` returns: the three spin box values. -/
def optionsPc (st : DialogState) : Rat × Rat × Rat := (st.pcX, st.pcY, st.pcZ)

/-- C9: when the pattern-center entries are missing or unparseable in the
settings store, the pattern center `getOptions` hands to the refinement is
the documented default (0.5, 0.2, 0.5); the fallback branch also records
that default in the (otherwise unread) `self.pc` attribute. -/
theorem c9_pattern_center_fallback (readParse : String → Option Rat)
    (hmiss : ∀ k ∈ ["X star", "Y star", "Z star"], readParse k = none) :
    optionsPc (loadPatternCenter readParse initialDialogState) =
      (1 / 2, 1 / 5, 1 / 2) ∧
    (loadPatternCenter readParse initialDialogState).selfPc = some pcFallback := by
  have hx : readParse "X star" = none := hmiss "X star" (by simp)
  constructor <;>
    simp [loadPatternCenter, hx, optionsPc, initialDialogState,
      uiPatternCenterDefault, pcFallback]

/-- Evaluation witness for C9 with an empty settings store. -/
theorem c9_pattern_center_fallback_witness :
    (∀ k ∈ ["X star", "Y star", "Z star"], (fun _ => (none : Option Rat)) k = none) ∧
    (optionsPc (loadPatternCenter (fun _ => none) initialDialogState) =
        (1 / 2, 1 / 5, 1 / 2) ∧
      (loadPatternCenter (fun _ => none) initialDialogState).selfPc =
        some pcFallback) :=
  ⟨fun _ _ => rfl,
   c9_pattern_center_fallback (fun _ => none) (fun _ _ => rfl)⟩

end EBSD
